import Mathlib

/-!
Verification development for the agcluster-container orchestration core.

Shallow embedding of the Python source under `src/agcluster/container/`:
pure logic becomes Lean functions, the session/container tables become
explicit state records, exceptions become `Except` / explicit outcome
constructors, and the points where the Python code performs network or
daemon calls are modelled by small oracles (a `fault` flag, a list of
lines received, ...).  All definitions are executable.
-/

set_option maxRecDepth 10000

namespace AgCluster

/-- Python exception classes that the embedded code can raise.  `loadError`
stands for whatever `load_config_from_id` raises on a bad config id. -/
inductive PyErr where
  | valueError (msg : String)
  | typeError (msg : String)
  | attributeError (attr : String)
  | overflowError (msg : String)
  | unauthorizedCredentialKey
  | loadError
deriving DecidableEq, Repr

/-! ### Association-list model of Python dicts -/

/-- Python dict read `d.get(k)` / `d[k]` membership test. -/
def lookupKey (k : String) : List (String × α) → Option α
  | [] => none
  | p :: r => if p.1 = k then some p.2 else lookupKey k r

/-- Python dict write `d[k] = v` (replaces any previous binding of `k`). -/
def insertKey (k : String) (v : α) (l : List (String × α)) : List (String × α) :=
  (k, v) :: l.filter (fun p => p.1 ≠ k)

/-- Python dict delete `del d[k]`. -/
def deleteKey (k : String) (l : List (String × α)) : List (String × α) :=
  l.filter (fun p => p.1 ≠ k)

theorem lookupKey_filter_ne (k : String) (l : List (String × α)) :
    lookupKey k (l.filter (fun p => p.1 ≠ k)) = none := by
  induction l with
  | nil => rfl
  | cons p r ih =>
    by_cases h : p.1 = k
    · simpa [List.filter, h] using ih
    · simpa [List.filter, h, lookupKey] using ih

theorem lookupKey_filter_isSome (pr : String × α → Bool) (k : String)
    (l : List (String × α)) :
    (lookupKey k (l.filter pr)).isSome = true → (lookupKey k l).isSome = true := by
  induction l with
  | nil => exact fun h => h
  | cons p r ih =>
    intro h
    by_cases hk : p.1 = k
    · simp [lookupKey, hk]
    · simp only [lookupKey, hk, if_false]
      apply ih
      cases hpr : pr p with
      | true => simpa [List.filter_cons, hpr, lookupKey, hk] using h
      | false => simpa [List.filter_cons, hpr] using h

/-! ### Python string helpers

These model the exact `str` operations that
`FlyProvider._parse_memory_limit` performs (`.lower()`, `.strip()`,
`.endswith(...)`, `.rstrip(chars)`, `float(...)`, `int(...)`).  They work on
`List Char` for full control of evaluation. -/

/-- Character set removed by Python `str.strip()` with no argument
(space, tab, newline, carriage return, vertical tab, form feed, by their
ASCII codes). -/
def pyIsSpace (c : Char) : Bool :=
  c.toNat = 32 ∨ c.toNat = 9 ∨ c.toNat = 10 ∨ c.toNat = 13 ∨ c.toNat = 11 ∨ c.toNat = 12

/-- ASCII decimal digit test (Python `str.isdigit` on ASCII). -/
def pyIsDigit (c : Char) : Bool :=
  48 ≤ c.toNat ∧ c.toNat ≤ 57

/-- ASCII lowercasing of one character (Python `str.lower`). -/
def pyToLower (c : Char) : Char :=
  if 65 ≤ c.toNat ∧ c.toNat ≤ 90 then Char.ofNat (c.toNat + 32) else c

/-- Python `s.strip()`. -/
def pyStrip (l : List Char) : List Char :=
  ((l.dropWhile pyIsSpace).reverse.dropWhile pyIsSpace).reverse

/-- Python `s.rstrip(chars)`: drop from the right every character in `set`. -/
def pyRstrip (set : List Char) (l : List Char) : List Char :=
  (l.reverse.dropWhile (fun c => c ∈ set)).reverse

/-- Python `s.endswith(suffix)`. -/
def endsWithL (suf l : List Char) : Bool :=
  List.isSuffixOf suf l

/-- Numeric value of a digit string (most significant first). -/
def digitsToNat (l : List Char) : Nat :=
  l.foldl (fun a c => a * 10 + (c.toNat - 48)) 0

/-- The value of `float(s)`: an exact rational `num / den` for finite
results (with `den` a power of ten), or an infinity, or NaN. -/
inductive PyFloat where
  | finite (num : ℤ) (den : Nat)
  | infinite (neg : Bool)
  | nan
deriving DecidableEq, Repr

/-- No two adjacent underscores. -/
def noDoubleUnderscore : List Char → Bool
  | [] => true
  | [_] => true
  | a :: b :: rest => !(a = '_' ∧ b = '_') && noDoubleUnderscore (b :: rest)

/-- A Python numeric digit group: digits with optional single underscores
strictly between digits (`1_000` is valid, `_1`, `1_`, `1__0` are not).
Returns the digits with the underscores removed; `none` when the group is
malformed; the empty group is valid and empty. -/
def digitGroup (l : List Char) : Option (List Char) :=
  if l.all (fun c => pyIsDigit c || c = '_') then
    if l.headI ≠ '_' ∧ l.getLastD '0' ≠ '_' ∧ noDoubleUnderscore l = true then
      some (l.filter pyIsDigit)
    else none
  else none

/-- The smallest positive magnitude that IEEE-754 binary64
round-to-nearest-even sends to infinity: `2 ^ 1024 - 2 ^ 970`, halfway
between the largest finite double and `2 ^ 1024` (the tie rounds away from
the all-ones mantissa).  Python's `float(s)` yields `inf` exactly for
decimal magnitudes at or above this. -/
def dblOvfNat : Nat := 2 ^ 1024 - 2 ^ 970

/-- Build the `float` value `± (M / 10 ^ S) * 10 ^ E`: an infinity when
the magnitude reaches the binary64 overflow threshold, otherwise the
exact rational (binary64 rounding of finite values is not modelled; it
only perturbs low-order bits irrelevant to the conversions at issue). -/
def mkFinite (neg : Bool) (M S : Nat) (E : ℤ) : PyFloat :=
  let over : Bool :=
    if (S : ℤ) ≤ E then dblOvfNat ≤ M * 10 ^ (E - (S : ℤ)).toNat
    else dblOvfNat * 10 ^ ((S : ℤ) - E).toNat ≤ M
  if over then .infinite neg
  else
    let num : ℤ :=
      if (S : ℤ) ≤ E then (M : ℤ) * 10 ^ (E - (S : ℤ)).toNat else (M : ℤ)
    let den : Nat := if (S : ℤ) ≤ E then 1 else 10 ^ ((S : ℤ) - E).toNat
    .finite (if neg then -num else num) den

/-- Python `float(s)` on a lowercased, stripped string (which is how
`_parse_memory_limit` always calls it): an optional sign followed by
`inf`, `infinity`, `nan`, or a decimal mantissa (digit groups with
underscores, at most one point, at least one digit) with an optional
`e`-exponent.  Values at or beyond the binary64 range give `inf`.
Returns `none` exactly where `float` raises `ValueError`. -/
def parsePyFloat (l : List Char) : Option PyFloat :=
  if l = [] then none
  else
    let neg : Bool := l.headI = '-'
    let rest := if l.headI = '-' ∨ l.headI = '+' then l.tail else l
    if rest = ['i', 'n', 'f'] ∨ rest = ['i', 'n', 'f', 'i', 'n', 'i', 't', 'y'] then
      some (.infinite neg)
    else if rest = ['n', 'a', 'n'] then
      some .nan
    else
      let mant := rest.takeWhile (fun x => x ≠ 'e')
      let erest := rest.drop mant.length
      let ip := mant.takeWhile (fun x => x ≠ '.')
      let rest2 := mant.drop ip.length
      let fp := rest2.tail
      match digitGroup ip, digitGroup fp with
      | some ipd, some fpd =>
        if ipd = [] ∧ fpd = [] then none
        else
          let M := digitsToNat (ipd ++ fpd)
          let S := fpd.length
          match erest with
          | [] => some (mkFinite neg M S 0)
          | _ :: etl =>
            let eneg : Bool := etl.headI = '-'
            let edigs := if etl.headI = '-' ∨ etl.headI = '+' then etl.tail else etl
            match digitGroup edigs with
            | some ed =>
                if ed = [] then none
                else
                  some (mkFinite neg M S
                    (if eneg then -(digitsToNat ed : ℤ) else (digitsToNat ed : ℤ)))
            | none => none
      | _, _ => none

/-- Python `int(x)` applied to the exact value `a / b` (with `b > 0`):
truncation toward zero. -/
def pyIntDiv (a : ℤ) (b : Nat) : ℤ :=
  if a < 0 then -(((-a).toNat / b : Nat) : ℤ) else ((a.toNat / b : Nat) : ℤ)

/-! ### FlyProvider._parse_memory_limit (fly_provider.py lines 598-632) -/

/-- Embedding of `FlyProvider._parse_memory_limit`.  The source lowercases
and strips the input, then dispatches on the suffix: `gb`/`g` multiplies by
1024, `mb`/`m` is taken as-is, `kb`/`k` divides by 1024, and a bare number
is treated as bytes and divided by `1024 * 1024`.  In the three unit
branches nothing is caught: a `float` failure propagates its `ValueError`,
`int(inf * k)` propagates `OverflowError`, `int(nan * k)` propagates the
NaN `ValueError`.  The bare branch wraps its conversion in
`try/except ValueError`, so `float` failures and `int(nan)` are re-raised
as the "Invalid memory limit format" `ValueError`, while `int(inf)`'s
`OverflowError` is not caught and propagates. -/
def fly_parse_memory_limit (memory_limit : String) : Except PyErr ℤ :=
  let m := pyStrip (memory_limit.data.map pyToLower)
  if endsWithL ['g', 'b'] m ∨ endsWithL ['g'] m then
    match parsePyFloat (pyRstrip ['g', 'b'] m) with
    | some (.finite num den) => .ok (pyIntDiv (num * 1024) den)
    | some (.infinite _) => .error (.overflowError "cannot convert float infinity to integer")
    | some .nan => .error (.valueError "cannot convert float NaN to integer")
    | none => .error (.valueError "could not convert string to float")
  else if endsWithL ['m', 'b'] m ∨ endsWithL ['m'] m then
    match parsePyFloat (pyRstrip ['m', 'b'] m) with
    | some (.finite num den) => .ok (pyIntDiv num den)
    | some (.infinite _) => .error (.overflowError "cannot convert float infinity to integer")
    | some .nan => .error (.valueError "cannot convert float NaN to integer")
    | none => .error (.valueError "could not convert string to float")
  else if endsWithL ['k', 'b'] m ∨ endsWithL ['k'] m then
    match parsePyFloat (pyRstrip ['k', 'b'] m) with
    | some (.finite num den) => .ok (pyIntDiv num (den * 1024))
    | some (.infinite _) => .error (.overflowError "cannot convert float infinity to integer")
    | some .nan => .error (.valueError "cannot convert float NaN to integer")
    | none => .error (.valueError "could not convert string to float")
  else
    match parsePyFloat m with
    | some (.finite num den) => .ok (pyIntDiv num (den * (1024 * 1024)))
    | some (.infinite _) => .error (.overflowError "cannot convert float infinity to integer")
    | some .nan => .error (.valueError "Invalid memory limit format")
    | none => .error (.valueError "Invalid memory limit format")

/-! Reasoning helpers about digit strings. -/

theorem digitsToNat_nil : digitsToNat [] = 0 := rfl

/-- The fields declared by the `ProviderConfig` dataclass in
`providers/base.py`.  Python attribute access on an instance succeeds
exactly for these names and raises `AttributeError` for any other. -/
def providerConfigFields : List String :=
  ["platform", "cpu_quota", "memory_limit", "storage_limit", "allowed_tools",
   "system_prompt", "max_turns", "api_key", "platform_credentials", "extra_files"]

/-- The `ProviderConfig` dataclass itself (`platform_credentials` and
`extra_files` are opaque maps no claim inspects, so they are omitted from
the record; their names still appear in `providerConfigFields`). -/
structure ProviderConfigM where
  platform : String
  cpu_quota : Int
  memory_limit : String
  storage_limit : String
  allowed_tools : List String
  system_prompt : String
  max_turns : Int
  api_key : String
deriving DecidableEq, Repr

/-- Outcome of running `FlyProvider.create_container` up to the point of
the machine-creation POST request (fly_provider.py line 184).
`raisedOther` carries any non-`ValueError` exception propagated by
`_parse_memory_limit` (an `OverflowError` for infinite memory values). -/
inductive FlyCreateOutcome where
  | raisedValueError
  | raisedAttributeError (attr : String)
  | raisedOther (e : PyErr)
  | reachedApiRequest
deriving DecidableEq, Repr

/-- Embedding of the prefix of `FlyProvider.create_container` that runs
before any Fly API request is issued.  Lines 76-82 (ids,
`cpu_count = max(1, cpu_quota // 100000)`) are total and cannot fail;
line 85 calls `_parse_memory_limit`, whose exception — `ValueError`, or
`OverflowError` for infinite values — propagates uncaught; line 98
evaluates `if config.mcp_servers:`, an attribute lookup on the
`ProviderConfig` dataclass (line 123 would likewise read
`config.mcp_env`).  Only if both lookups succeeded would control flow
reach the `httpx` POST at line 184. -/
def fly_create_container (cfg : ProviderConfigM) : FlyCreateOutcome :=
  match fly_parse_memory_limit cfg.memory_limit with
  | .error (.valueError _) => .raisedValueError
  | .error e => .raisedOther e
  | .ok _ =>
      if "mcp_servers" ∈ providerConfigFields then
        if "mcp_env" ∈ providerConfigFields then .reachedApiRequest
        else .raisedAttributeError "mcp_env"
      else .raisedAttributeError "mcp_servers"

/-- A `ProviderConfig` whose `memory_limit` does not parse. -/
def configBogusMem : ProviderConfigM :=
  ⟨"fly_machines", 100000, "bogus", "10g", [], "", 10, "sk-key"⟩

/-- A well-formed `ProviderConfig` with a parseable `memory_limit`. -/
def config4g : ProviderConfigM :=
  ⟨"fly_machines", 200000, "4g", "10g", [], "", 10, "sk-key"⟩

/-- Discriminator: did `create_container` end in an `AttributeError`? -/
def isAttributeErrorOutcome : FlyCreateOutcome → Bool
  | .raisedAttributeError _ => true
  | _ => false

/-- C9 counterexample: not every `ProviderConfig` makes
`create_container` raise `AttributeError` — with `memory_limit = "bogus"`
the `_parse_memory_limit` call at line 85 raises `ValueError` first,
before line 98 is reached. -/
theorem c9_counterexample :
    fly_create_container configBogusMem = .raisedValueError ∧
      isAttributeErrorOutcome (fly_create_container configBogusMem) = false :=
  ⟨by rfl, by rfl⟩

/-- C9 amended: for every `ProviderConfig`, `create_container` fails
before issuing the machine-creation API request (so it can never return a
`ContainerInfo`), and whenever the memory limit parses the failure is the
`AttributeError` on `config.mcp_servers`, which is not a field of the
dataclass. -/
theorem c9_amended (cfg : ProviderConfigM) :
    fly_create_container cfg ≠ .reachedApiRequest ∧
    (∀ v, fly_parse_memory_limit cfg.memory_limit = .ok v →
      fly_create_container cfg = .raisedAttributeError "mcp_servers") := by
  constructor
  · unfold fly_create_container
    split
    all_goals first
      | decide
      | simp
  · intro v hv
    simp only [fly_create_container, hv]
    decide

/-- C9 witness: the amended claim evaluated at a concrete well-formed
configuration. -/
theorem c9_amended_witness :
    fly_create_container config4g ≠ .reachedApiRequest ∧
      fly_create_container config4g = .raisedAttributeError "mcp_servers" :=
  ⟨(c9_amended config4g).1, (c9_amended config4g).2 4096 (by rfl)⟩

/-! ### Provider stop_container (docker_provider.py lines 209-244,
fly_provider.py lines 257-314) -/

/-- Removal of the first association whose value is `cid` (the
`for sid, info in ...: if info.container_id == container_id: break` /
`del` pattern both providers use for their bookkeeping tables). -/
def removeFirstBySnd (cid : String) : List (String × String) → List (String × String)
  | [] => []
  | p :: r => if p.2 = cid then r else p :: removeFirstBySnd cid r

/-- State a `DockerProvider` instance acts on: the daemon's containers
and the provider's `active_containers` table (session id ↦ container id). -/
structure DockerProviderState where
  daemon : List String
  active_containers : List (String × String)
deriving DecidableEq, Repr

/-- Embedding of `DockerProvider.stop_container`.  `containers.get`
raises `NotFound` when the id is unknown to the daemon (caught: returns
`False`); `fault` models any other exception from the docker SDK calls
(caught by the blanket `except Exception`: returns `False`); on success
the container is stopped and removed, the matching bookkeeping entry is
deleted, and the call returns `True`.  The `Bool × State` codomain records
that the source catches every exception — no input raises. -/
def docker_stop_container (st : DockerProviderState) (fault : Bool) (cid : String) :
    Bool × DockerProviderState :=
  if cid ∈ st.daemon then
    if fault then (false, st)
    else
      (true, { daemon := st.daemon.filter (fun x => x ≠ cid),
               active_containers := removeFirstBySnd cid st.active_containers })
  else (false, st)

/-- State a `FlyProvider` instance acts on: the machines the Fly API
knows and the provider's `active_machines` table. -/
structure FlyProviderState where
  machines : List String
  active_machines : List (String × String)
deriving DecidableEq, Repr

/-- Embedding of `FlyProvider.stop_container`.  `fault` models a network
error or non-2xx API response during the stop/delete calls (every such
path is caught and returns `False`); a DELETE answered 404 (machine
unknown) returns `False`; otherwise the machine is destroyed, the
bookkeeping entry dropped, and the call returns `True`. -/
def fly_stop_container (st : FlyProviderState) (fault : Bool) (cid : String) :
    Bool × FlyProviderState :=
  if fault then (false, st)
  else if cid ∈ st.machines then
    (true, { machines := st.machines.filter (fun x => x ≠ cid),
             active_machines := removeFirstBySnd cid st.active_machines })
  else (false, st)

/-- C4: both providers' `stop_container` return `True` then `False` when
called twice on a live container id, return `False` (not an error) for an
already-gone or unknown id, and return `False` rather than propagating
when the backend call raises; the `Bool × State` codomain witnesses that
no input raises. -/
theorem c4_stop_idempotent (dst : DockerProviderState) (fst2 : FlyProviderState)
    (cid : String) (hd : cid ∈ dst.daemon) (hf : cid ∈ fst2.machines) :
    (docker_stop_container dst false cid).1 = true ∧
    (docker_stop_container (docker_stop_container dst false cid).2 false cid).1 = false ∧
    (fly_stop_container fst2 false cid).1 = true ∧
    (fly_stop_container (fly_stop_container fst2 false cid).2 false cid).1 = false ∧
    (∀ st : DockerProviderState, cid ∉ st.daemon →
      ∀ fault, (docker_stop_container st fault cid).1 = false) ∧
    (∀ st : FlyProviderState, cid ∉ st.machines →
      ∀ fault, (fly_stop_container st fault cid).1 = false) ∧
    (∀ st : DockerProviderState, (docker_stop_container st true cid).1 = false) ∧
    (∀ st : FlyProviderState, (fly_stop_container st true cid).1 = false) := by
  have hd2 : cid ∉ dst.daemon.filter (fun x => x ≠ cid) := by
    simp [List.mem_filter]
  have hf2 : cid ∉ fst2.machines.filter (fun x => x ≠ cid) := by
    simp [List.mem_filter]
  refine ⟨?_, ?_, ?_, ?_, ?_, ?_, ?_, ?_⟩
  · simp [docker_stop_container, hd]
  · simp [docker_stop_container, hd, hd2]
  · simp [fly_stop_container, hf]
  · simp [fly_stop_container, hf, hf2]
  · intro st hst fault
    simp [docker_stop_container, hst]
  · intro st hst fault
    simp [fly_stop_container, hst]
  · intro st
    by_cases hst : cid ∈ st.daemon <;> simp [docker_stop_container, hst]
  · intro st
    simp [fly_stop_container]

/-- C4 witness: the theorem applied to one-container states. -/
theorem c4_stop_idempotent_witness :
    (docker_stop_container ⟨["c1"], [("s1", "c1")]⟩ false "c1").1 = true ∧
      (fly_stop_container ⟨["c1"], [("s1", "c1")]⟩ false "c1").1 = true :=
  ⟨(c4_stop_idempotent ⟨["c1"], [("s1", "c1")]⟩ ⟨["c1"], [("s1", "c1")]⟩ "c1"
      (by decide) (by decide)).1,
   (c4_stop_idempotent ⟨["c1"], [("s1", "c1")]⟩ ⟨["c1"], [("s1", "c1")]⟩ "c1"
      (by decide) (by decide)).2.2.1⟩

/-! ### Raw event envelopes (the `{type, data?, message?}` dicts the agent
server emits over SSE) -/

/-- The `data` sub-dict of a raw event: `data.get("type")` and
`data.get("content", "")` are the only reads the translator performs;
further keys ride along opaquely when the dict is forwarded wholesale. -/
structure RawData where
  dtype : Option String
  content : String
deriving DecidableEq, Repr

/-- A raw event dict: `message.get("type")`, `message.get("data", {})`
and `message.get("message")`. -/
structure RawEvent where
  etype : Option String
  data : RawData
  errMessage : Option String
deriving DecidableEq, Repr

/-! ### execute_query (docker_provider.py lines 266-312,
fly_provider.py lines 338-390) -/

/-- One line received from the container's SSE response:
a `data: ` line with JSON-decodable payload, a `data: ` line whose
payload fails `json.loads` (logged and skipped), or a line without the
`data: ` prefix (ignored). -/
inductive SSELineIn where
  | dataLine (msg : RawEvent)
  | badData
  | otherLine
deriving DecidableEq, Repr

/-- Events yielded for one received line. -/
def parseLine : SSELineIn → List RawEvent
  | .dataLine msg => [msg]
  | .badData => []
  | .otherLine => []

/-- The error classes `execute_query` catches:
`httpx.HTTPStatusError` (from `raise_for_status`), `httpx.RequestError`,
and the blanket `except Exception`. -/
inductive NetErr where
  | httpStatus (code : Nat)
  | requestError (msg : String)
  | other (msg : String)
deriving DecidableEq, Repr

/-- How one run of the HTTP/SSE interaction ends: the stream completes
cleanly after the given lines, or a failure is raised after them. -/
inductive NetOutcome where
  | ok (lines : List SSELineIn)
  | failAfter (lines : List SSELineIn) (err : NetErr)
deriving DecidableEq, Repr

/-- The single `{"type": "error", "message": ...}` dict each `except`
branch of `execute_query` yields (there is no `data` key, so the `data`
sub-dict reads fall back to their defaults). -/
def queryErrorEvent (e : NetErr) : RawEvent :=
  { etype := some "error"
    data := { dtype := none, content := "" }
    errMessage := some (match e with
      | .httpStatus code => "HTTP error: " ++ toString code
      | .requestError msg => "Request error: " ++ msg
      | .other msg => "Unexpected error: " ++ msg) }

/-- Embedding of `DockerProvider.execute_query`: yield the parsed events
of every `data: ` line; if the interaction fails, the exception is caught
and exactly one terminal error event is yielded instead of propagating. -/
def docker_execute_query : NetOutcome → List RawEvent
  | .ok lines => lines.flatMap parseLine
  | .failAfter lines err => lines.flatMap parseLine ++ [queryErrorEvent err]

/-- Embedding of `FlyProvider.execute_query` (lines 338-390), an exact
duplicate of the Docker body down to the error message strings. -/
def fly_execute_query : NetOutcome → List RawEvent
  | .ok lines => lines.flatMap parseLine
  | .failAfter lines err => lines.flatMap parseLine ++ [queryErrorEvent err]

/-- Events of type `"error"` in a yielded stream. -/
def countErrorEvents (l : List RawEvent) : Nat :=
  l.countP (fun e => e.etype = some "error")

theorem countErrorEvents_append (a b : List RawEvent) :
    countErrorEvents (a ++ b) = countErrorEvents a + countErrorEvents b :=
  List.countP_append _ a b

/-- C5: for every sequence of received lines and every network/protocol
failure, both providers' `execute_query` yield the events parsed so far
followed by exactly one additional terminal event, that event has type
`"error"`, and the stream ends there; the `List` codomain (rather than an
exception-carrying one) records that no exception reaches the caller. -/
theorem c5_query_error_funnel (lines : List SSELineIn) (err : NetErr) :
    docker_execute_query (.failAfter lines err) =
      docker_execute_query (.ok lines) ++ [queryErrorEvent err] ∧
    fly_execute_query (.failAfter lines err) =
      fly_execute_query (.ok lines) ++ [queryErrorEvent err] ∧
    (queryErrorEvent err).etype = some "error" ∧
    countErrorEvents (docker_execute_query (.failAfter lines err)) =
      countErrorEvents (docker_execute_query (.ok lines)) + 1 ∧
    countErrorEvents (fly_execute_query (.failAfter lines err)) =
      countErrorEvents (fly_execute_query (.ok lines)) + 1 := by
  refine ⟨rfl, rfl, rfl, ?_, ?_⟩ <;>
    simp [docker_execute_query, fly_execute_query, countErrorEvents_append,
      countErrorEvents, queryErrorEvent]

/-! ### stream_to_openai_sse (translator.py lines 34-144) -/

/-- One SSE string yielded by the translator, by shape: an OpenAI
`chat.completion.chunk` (with its `delta.role`, `delta.content` and
`finish_reason` fields — `id`, `object`, `created` and `model` are
constant framing), a Vercel-style out-of-band data part (`data-tool` /
`data-todo`) carrying the event's `data` dict, or the `data: [DONE]`
terminator. -/
inductive SSEOut where
  | chunk (role : Option String) (content : Option String) (finish : Option String)
  | dataPart (kind : String) (payload : RawData)
  | done
deriving DecidableEq, Repr

/-- Translation of one `type == "message"` event (translator.py lines
54-104): `content` messages become a delta chunk when non-empty, the four
tool/thinking kinds become a `data-tool` part, `todo_update` becomes a
`data-todo` part, everything else is filtered out. -/
def translateMessageEvent (d : RawData) : List SSEOut :=
  if d.dtype = some "content" then
    if d.content ≠ "" then [.chunk (some "assistant") (some d.content) none] else []
  else if d.dtype = some "tool_start" ∨ d.dtype = some "tool_use" ∨
      d.dtype = some "tool_complete" ∨ d.dtype = some "thinking" then
    [.dataPart "data-tool" d]
  else if d.dtype = some "todo_update" then
    [.dataPart "data-todo" d]
  else []

/-- The terminal chunk rendered for an `error` event (translator.py lines
124-144): a user-visible content delta annotated with the error marker
and `finish_reason = "error"`. -/
def errorChunk (msgOpt : Option String) : SSEOut :=
  .chunk none (some ("\n\n[Error: " ++ msgOpt.getD "Unknown error" ++ "]\n")) (some "error")

/-- Embedding of `stream_to_openai_sse`: fold the raw event stream into
OpenAI-style chunks; a `complete` event yields the stop chunk plus
`[DONE]` and breaks, an `error` event yields the error chunk plus
`[DONE]` and breaks, any other non-`message` type is skipped. -/
def stream_to_openai_sse : List RawEvent → List SSEOut
  | [] => []
  | e :: rest =>
    if e.etype = some "message" then
      translateMessageEvent e.data ++ stream_to_openai_sse rest
    else if e.etype = some "complete" then
      [.chunk none none (some "stop"), .done]
    else if e.etype = some "error" then
      [errorChunk e.errMessage, .done]
    else
      stream_to_openai_sse rest

/-- Chunks carrying `finish_reason = "error"`. -/
def isErrorFinish : SSEOut → Bool
  | .chunk _ _ f => f = some "error"
  | _ => false

/-- A raw event is terminal when its type is `complete` or `error`. -/
def isTerminal (e : RawEvent) : Bool :=
  e.etype = some "complete" ∨ e.etype = some "error"

theorem translateMessageEvent_no_finish (d : RawData) :
    (translateMessageEvent d).countP isErrorFinish = 0 := by
  unfold translateMessageEvent
  repeat' split
  all_goals simp [isErrorFinish]

theorem stream_no_finish_of_no_terminal (events : List RawEvent)
    (h : ∀ e ∈ events, isTerminal e = false) :
    (stream_to_openai_sse events).countP isErrorFinish = 0 := by
  induction events with
  | nil => rfl
  | cons e rest ih =>
    have he := h e (List.mem_cons_self e rest)
    have hrest := ih (fun x hx => h x (List.mem_cons_of_mem e hx))
    simp only [isTerminal, decide_eq_false_iff_not, not_or] at he
    simp only [stream_to_openai_sse]
    split
    · rw [List.countP_append, translateMessageEvent_no_finish, hrest]
    · rw [if_neg he.1, if_neg he.2]
      exact hrest

theorem stream_append_of_no_terminal (events rest : List RawEvent)
    (h : ∀ e ∈ events, isTerminal e = false) :
    stream_to_openai_sse (events ++ rest) =
      stream_to_openai_sse events ++ stream_to_openai_sse rest := by
  induction events with
  | nil => rfl
  | cons e tl ih =>
    have he := h e (List.mem_cons_self e tl)
    have htl := ih (fun x hx => h x (List.mem_cons_of_mem e hx))
    simp only [isTerminal, decide_eq_false_iff_not, not_or] at he
    simp only [List.cons_append, stream_to_openai_sse]
    split
    · rw [show tl.append rest = tl ++ rest from rfl, htl, List.append_assoc]
    · rw [if_neg he.1, if_neg he.2, if_neg he.1, if_neg he.2]
      rw [show tl.append rest = tl ++ rest from rfl]
      exact htl

/-- C6: a finite raw stream whose terminal event has type `"error"`
translates to the translation of its well-formed prefix followed by
exactly one terminal error chunk — a content delta annotated with the
`[Error: ...]` marker and `finish_reason = "error"` — and the `[DONE]`
terminator; no further output follows, and exactly one chunk in the whole
output carries `finish_reason = "error"`.  Totality of the embedding
records that translation never raises. -/
theorem c6_translator_error_terminal (events : List RawEvent) (err : RawEvent)
    (hpre : ∀ e ∈ events, isTerminal e = false)
    (herr : err.etype = some "error") :
    stream_to_openai_sse (events ++ [err]) =
      stream_to_openai_sse events ++ [errorChunk err.errMessage, .done] ∧
    (stream_to_openai_sse (events ++ [err])).countP isErrorFinish = 1 ∧
    isErrorFinish (errorChunk err.errMessage) = true := by
  have herr2 : err.etype ≠ some "message" := by rw [herr]; decide
  have herr3 : err.etype ≠ some "complete" := by rw [herr]; decide
  have htail : stream_to_openai_sse [err] = [errorChunk err.errMessage, .done] := by
    simp [stream_to_openai_sse, herr]
  have happ := stream_append_of_no_terminal events [err] hpre
  refine ⟨by rw [happ, htail], ?_, by simp [isErrorFinish, errorChunk]⟩
  rw [happ, htail, List.countP_append, stream_no_finish_of_no_terminal events hpre]
  simp [isErrorFinish, errorChunk]

/-- C6 witness: a concrete stream — one content delta, one tool event,
then a failure event — translates to the content chunk, the data part,
the annotated error delta and the terminator. -/
theorem c6_translator_error_terminal_witness :
    stream_to_openai_sse
        [⟨some "message", ⟨some "content", "hi"⟩, none⟩,
         ⟨some "message", ⟨some "tool_start", ""⟩, none⟩,
         ⟨some "error", ⟨none, ""⟩, some "boom"⟩] =
      [.chunk (some "assistant") (some "hi") none,
       .dataPart "data-tool" ⟨some "tool_start", ""⟩,
       errorChunk (some "boom"), .done] := by
  have h := c6_translator_error_terminal
    [⟨some "message", ⟨some "content", "hi"⟩, none⟩,
     ⟨some "message", ⟨some "tool_start", ""⟩, none⟩]
    ⟨some "error", ⟨none, ""⟩, some "boom"⟩
    (by decide) (by rfl)
  exact h.1.trans (by rfl)

/-! ### ContainerManager and SessionManager state
(core/container_manager.py, core/session_manager.py) -/

/-- The `AgentContainer` record (container_manager.py lines 19-36), with
timestamps as integer instants. -/
structure AgentContainerM where
  agent_id : String
  container_id : String
  created_at : Int
  last_active : Int
deriving DecidableEq, Repr

/-- State of the global `ContainerManager`: the docker daemon's
containers and the `active_containers` table (agent id ↦ container id). -/
structure CMState where
  daemon : List String
  active_containers : List (String × String)
deriving DecidableEq, Repr

/-- Embedding of `ContainerManager.stop_container` (lines 371-393).
An unknown agent id only logs and returns; otherwise the docker
get/stop/remove calls run inside `try` — `docker.errors.NotFound`
(container id gone from the daemon) and any other exception (`fault`)
are both caught — and the `finally` block deletes the table entry on
every path.  The function is total: the source never lets an exception
escape this method. -/
def cm_stop_container (st : CMState) (fault : Bool) (agent_id : String) : CMState :=
  match lookupKey agent_id st.active_containers with
  | none => st
  | some cid =>
    { daemon := if fault then st.daemon else st.daemon.filter (fun x => x ≠ cid),
      active_containers := deleteKey agent_id st.active_containers }

/-- Combined state of the `SessionManager` (its `sessions` dict) and the
global `container_manager` it drives. -/
structure SMState where
  sessions : List (String × AgentContainerM)
  cm : CMState
deriving DecidableEq, Repr

/-- Embedding of `SessionManager.cleanup_session` (lines 169-186):
a missing session only logs; otherwise `container_manager.stop_container`
runs (total — see `cm_stop_container`), so the `del` of the session entry
that follows it inside the `try` always executes. -/
def cleanup_session (st : SMState) (fault : Bool) (session_id : String) : SMState :=
  match lookupKey session_id st.sessions with
  | none => st
  | some ac =>
    { sessions := deleteKey session_id st.sessions,
      cm := cm_stop_container st.cm fault ac.agent_id }

/-- The second loop of `cleanup_idle_sessions` (lines 250-256): for each
collected session, stop its container once and delete its table entry;
the returned trace lists the agent ids passed to `stop_container`, in
order. -/
def removeIdleLoop (faults : String → Bool) :
    List (String × AgentContainerM) → SMState → SMState × List String
  | [], st => (st, [])
  | p :: rest, st =>
    let st1 : SMState :=
      { sessions := deleteKey p.1 st.sessions,
        cm := cm_stop_container st.cm (faults p.2.agent_id) p.2.agent_id }
    let r := removeIdleLoop faults rest st1
    (r.1, p.2.agent_id :: r.2)

/-- Embedding of `SessionManager.cleanup_idle_sessions` (lines 234-259):
first pass collects every session whose idle time `now - last_active`
strictly exceeds the timeout; second pass stops and removes each. -/
def cleanup_idle_sessions (st : SMState) (faults : String → Bool)
    (now idle_timeout : Int) : SMState × List String :=
  removeIdleLoop faults
    (st.sessions.filter (fun p => now - p.2.last_active > idle_timeout)) st

/-- Membership of a key outside a key list, as a filter predicate. -/
def keyNotIn (keys : List String) (q : String × AgentContainerM) : Bool :=
  decide (q.1 ∉ keys)

theorem removeIdleLoop_trace (faults : String → Bool)
    (R : List (String × AgentContainerM)) (st : SMState) :
    (removeIdleLoop faults R st).2 = R.map (fun p => p.2.agent_id) := by
  induction R generalizing st with
  | nil => rfl
  | cons p rest ih => simp [removeIdleLoop, ih]

theorem filter_keyNotIn_nil (l : List (String × AgentContainerM)) :
    l.filter (keyNotIn []) = l :=
  List.filter_eq_self.mpr (fun a _ => by simp [keyNotIn])

theorem filter_keyNotIn_cons (k : String) (ks : List String)
    (l : List (String × AgentContainerM)) :
    (l.filter (fun q => q.1 ≠ k)).filter (keyNotIn ks) =
      l.filter (keyNotIn (k :: ks)) := by
  rw [@List.filter_filter _ (keyNotIn ks) (fun q => q.1 ≠ k) l]
  apply List.filter_congr
  intro a _
  by_cases h1 : a.1 = k
  · simp [keyNotIn, h1]
  · by_cases h2 : a.1 ∈ ks <;> simp [keyNotIn, h1, h2]

theorem removeIdleLoop_sessions (faults : String → Bool)
    (R : List (String × AgentContainerM)) (st : SMState) :
    (removeIdleLoop faults R st).1.sessions =
      st.sessions.filter (keyNotIn (R.map Prod.fst)) := by
  induction R generalizing st with
  | nil => exact (filter_keyNotIn_nil st.sessions).symm
  | cons p rest ih =>
    simp only [removeIdleLoop, ih, deleteKey, List.map_cons]
    exact filter_keyNotIn_cons p.1 (rest.map Prod.fst) st.sessions

theorem keyNotIn_filter_of_nodup (P : String × AgentContainerM → Bool)
    (l : List (String × AgentContainerM)) (hnodup : (l.map Prod.fst).Nodup)
    (q : String × AgentContainerM) (hq : q ∈ l) :
    keyNotIn ((l.filter P).map Prod.fst) q = !P q := by
  cases hP : P q with
  | true =>
    have : q.1 ∈ (l.filter P).map Prod.fst :=
      List.mem_map.mpr ⟨q, List.mem_filter.mpr ⟨hq, hP⟩, rfl⟩
    simp [keyNotIn, this]
  | false =>
    have : q.1 ∉ (l.filter P).map Prod.fst := by
      intro hmem
      obtain ⟨r, hrf, hrk⟩ := List.mem_map.mp hmem
      have hrl := (List.mem_filter.mp hrf).1
      have hPr := (List.mem_filter.mp hrf).2
      have : r = q := List.inj_on_of_nodup_map hnodup hrl hq hrk
      rw [this, hP] at hPr
      exact Bool.false_ne_true hPr
    simp [keyNotIn, this]

/-- C7: one pass of the idle sweep calls `stop_container` exactly once
for each session whose idle time strictly exceeds the timeout (the trace
equals, in order, the agent ids of exactly those sessions), and the
resulting table holds exactly the sessions within the window, as the very
same entries (timestamps untouched).  The hypothesis is the dict
invariant: session ids are unique keys. -/
theorem c7_idle_sweep (st : SMState) (faults : String → Bool)
    (now idle_timeout : Int) (hnodup : (st.sessions.map Prod.fst).Nodup) :
    (cleanup_idle_sessions st faults now idle_timeout).2 =
      (st.sessions.filter (fun p => now - p.2.last_active > idle_timeout)).map
        (fun p => p.2.agent_id) ∧
    (cleanup_idle_sessions st faults now idle_timeout).1.sessions =
      st.sessions.filter (fun p => !decide (now - p.2.last_active > idle_timeout)) := by
  constructor
  · exact removeIdleLoop_trace faults _ st
  · rw [cleanup_idle_sessions, removeIdleLoop_sessions]
    exact List.filter_congr (fun q hq =>
      keyNotIn_filter_of_nodup _ st.sessions hnodup q hq)

/-- A session 31 "minutes" idle (timestamps in seconds). -/
def acOld : AgentContainerM := ⟨"agent-old", "c-old", 0, 0⟩

/-- A session active 1 second ago. -/
def acNew : AgentContainerM := ⟨"agent-new", "c-new", 0, 1859⟩

/-- A two-session manager state. -/
def smTwo : SMState :=
  ⟨[("s-old", acOld), ("s-new", acNew)],
   ⟨["c-old", "c-new"], [("agent-old", "c-old"), ("agent-new", "c-new")]⟩⟩

/-- C7 witness: at `now = 1860` with a 1800-second timeout, the sweep
stops exactly the stale session and leaves the fresh one untouched. -/
theorem c7_idle_sweep_witness :
    (cleanup_idle_sessions smTwo (fun _ => false) 1860 1800).2 = ["agent-old"] ∧
      (cleanup_idle_sessions smTwo (fun _ => false) 1860 1800).1.sessions =
        [("s-new", acNew)] := by
  have h := c7_idle_sweep smTwo (fun _ => false) 1860 1800 (by decide)
  exact ⟨h.1.trans (by rfl), h.2.trans (by rfl)⟩

/-- C8: a stop attempt always clears the local bookkeeping.
`ContainerManager.stop_container` leaves no `active_containers` entry for
the agent id regardless of the fault oracle (the `finally` block), and
`cleanup_session` leaves no session entry for the id and no live-table
entry for the session's agent — even when the backend call failed. -/
theorem c8_stop_removes_bookkeeping (st : SMState) (fault : Bool) (sid : String) :
    (∀ (cmst : CMState) (f : Bool) (aid : String),
      lookupKey aid (cm_stop_container cmst f aid).active_containers = none ∨
        lookupKey aid cmst.active_containers = none) ∧
    (lookupKey sid (cleanup_session st fault sid).sessions = none ∨
      lookupKey sid st.sessions = none) ∧
    (∀ ac, lookupKey sid st.sessions = some ac →
      lookupKey sid (cleanup_session st fault sid).sessions = none ∧
      lookupKey ac.agent_id (cleanup_session st fault sid).cm.active_containers = none) := by
  have hcm : ∀ (cmst : CMState) (f : Bool) (aid : String),
      lookupKey aid (cm_stop_container cmst f aid).active_containers = none ∨
        lookupKey aid cmst.active_containers = none := by
    intro cmst f aid
    unfold cm_stop_container
    cases hl : lookupKey aid cmst.active_containers with
    | none => exact Or.inr rfl
    | some cid =>
      left
      exact lookupKey_filter_ne aid cmst.active_containers
  refine ⟨hcm, ?_, ?_⟩
  · unfold cleanup_session
    cases hl : lookupKey sid st.sessions with
    | none => exact Or.inr rfl
    | some ac => exact Or.inl (lookupKey_filter_ne sid st.sessions)
  · intro ac hac
    have hred : cleanup_session st fault sid =
        { sessions := deleteKey sid st.sessions,
          cm := cm_stop_container st.cm fault ac.agent_id } := by
      unfold cleanup_session
      rw [hac]
    rw [hred]
    refine ⟨lookupKey_filter_ne sid st.sessions, ?_⟩
    rcases hcm st.cm fault ac.agent_id with h | h
    · exact h
    · unfold cm_stop_container
      rw [h]
      exact h

/-- C8 witness: stopping session `"s-old"` of the two-session state with
the backend call raising still removes both table entries. -/
theorem c8_stop_removes_bookkeeping_witness :
    lookupKey "s-old" (cleanup_session smTwo true "s-old").sessions = none ∧
      lookupKey "agent-old" (cleanup_session smTwo true "s-old").cm.active_containers =
        none :=
  (c8_stop_removes_bookkeeping smTwo true "s-old").2.2 acOld (by rfl)

/-! ### SessionManager.create_session_from_config (lines 57-125) with
ContainerManager.__init__ (container_manager.py lines 78-80) -/

/-- The parameter names of `ContainerManager.__init__` besides `self`:
there are none (container_manager.py line 78 declares `__init__(self)`),
so any keyword argument raises `TypeError`. -/
def containerManagerInitParams : List String := []

/-- Projection of `AgentConfig` (models/agent_config.py) to the fields
the claims read: the config id and, per configured MCP server, the names
of the env keys its `McpServerConfig.env` declares. -/
structure AgentConfigM where
  id : String
  mcp_servers : List (String × List String)
deriving DecidableEq, Repr

/-- The `elif config:` / `else: raise ValueError` arm of the config
resolution (session_manager.py lines 86-91). -/
def resolveConfigInline : Option AgentConfigM → Except PyErr AgentConfigM
  | some c => .ok c
  | none => .error (.valueError "Either config_id or config must be provided")

/-- Config resolution (session_manager.py lines 81-91): a truthy
`config_id` is loaded via `load_config_from_id` (whose failure
propagates, modelled by the `loadCfg` oracle returning `none`); an empty
`config_id` is falsy in Python and falls through to the inline arm. -/
def resolveConfig (loadCfg : String → Option AgentConfigM) :
    Option String → Option AgentConfigM → Except PyErr AgentConfigM
  | some cid, cfg? =>
      if cid = "" then resolveConfigInline cfg?
      else
        match loadCfg cid with
        | some c => .ok c
        | none => .error .loadError
  | none, cfg? => resolveConfigInline cfg?

/-- Embedding of `SessionManager.create_session_from_config` (lines
57-125).  After config resolution and session-id generation (an empty
`conversation_id` is falsy and triggers the `secrets` token, supplied by
the `freshToken` oracle), an existing session with the same id is cleaned
up and replaced.  Line 106 then tests `if provider:` — Python truthiness,
so `None` and the empty string both take the default branch.  A truthy
provider makes the source construct `ContainerManager(provider_name=provider)`;
`__init__` accepts no such keyword, so Python raises `TypeError` before
any container is created.  A falsy provider lets the global manager
create the container (`newAc` oracle) and the session is stored. -/
def create_session_from_config (st : SMState) (loadCfg : String → Option AgentConfigM)
    (newAc : AgentContainerM) (fault : Bool) (conversation_id : String)
    (config_id : Option String) (config : Option AgentConfigM)
    (provider : Option String) (freshToken : String) :
    Except PyErr (String × AgentContainerM) × SMState :=
  match resolveConfig loadCfg config_id config with
  | .error e => (.error e, st)
  | .ok _cfg =>
    let session_id :=
      if conversation_id ≠ "" then "conv-" ++ conversation_id else "conv-" ++ freshToken
    let st1 :=
      if (lookupKey session_id st.sessions).isSome then cleanup_session st fault session_id
      else st
    let provider_truthy : Bool :=
      match provider with
      | some p => p ≠ ""
      | none => false
    if provider_truthy then
      if "provider_name" ∈ containerManagerInitParams then
        (.ok (session_id, newAc),
          { st1 with sessions := insertKey session_id newAc st1.sessions })
      else
        (.error (.typeError "init got an unexpected keyword argument provider_name"), st1)
    else
      (.ok (session_id, newAc),
        { st1 with sessions := insertKey session_id newAc st1.sessions })

/-- The empty manager state. -/
def emptySM : SMState := ⟨[], ⟨[], []⟩⟩

/-- A sample container the manager would create. -/
def sampleAc : AgentContainerM := ⟨"agent-1", "cont-1", 0, 0⟩

/-- A sample configuration declaring one MCP credential key. -/
def cfgSample : AgentConfigM := ⟨"code-assistant", [("github", ["GITHUB_TOKEN"])]⟩

theorem cleanup_session_sessions_shrink (st : SMState) (fault : Bool) (k sid : String) :
    (lookupKey sid (cleanup_session st fault k).sessions).isSome = true →
    (lookupKey sid st.sessions).isSome = true := by
  unfold cleanup_session
  cases hl : lookupKey k st.sessions with
  | none => exact id
  | some ac => exact fun h => lookupKey_filter_isSome _ sid _ h

/-- Discriminator: did the call raise a `TypeError`? -/
def raisedTypeError : Except PyErr (String × AgentContainerM) → Bool
  | .error (.typeError _) => true
  | _ => false

/-- C10 counterexample: with a non-`None` provider but neither
`config_id` nor `config`, the call raises the `ValueError` of the config
resolution — not `TypeError` — so "always raises TypeError" fails. -/
theorem c10_counterexample :
    (create_session_from_config emptySM (fun _ => none) sampleAc false "c1" none none
        (some "docker") "tok").1 =
      .error (.valueError "Either config_id or config must be provided") ∧
    raisedTypeError (create_session_from_config emptySM (fun _ => none) sampleAc false
      "c1" none none (some "docker") "tok").1 = false :=
  ⟨by rfl, by rfl⟩

/-- C10 amended: whenever the config resolution succeeds (a config was
supplied inline, or the config id loads) and the provider argument is
truthy (non-`None` and non-empty — Python's `if provider:` at line 106
treats the empty string like `None`), the call raises `TypeError` —
`ContainerManager.__init__` accepts no `provider_name` keyword — and
stores no session: every id present in the resulting table was already
present before the call. -/
theorem c10_amended (st : SMState) (loadCfg : String → Option AgentConfigM)
    (newAc : AgentContainerM) (fault : Bool) (conversation_id : String)
    (config_id : Option String) (config : Option AgentConfigM) (p : String)
    (freshToken : String) (cfg : AgentConfigM)
    (hres : resolveConfig loadCfg config_id config = .ok cfg)
    (hp : p ≠ "") :
    (∃ msg, (create_session_from_config st loadCfg newAc fault conversation_id
        config_id config (some p) freshToken).1 = .error (.typeError msg)) ∧
    (∀ sid, (lookupKey sid (create_session_from_config st loadCfg newAc fault
        conversation_id config_id config (some p) freshToken).2.sessions).isSome = true →
      (lookupKey sid st.sessions).isSome = true) := by
  unfold create_session_from_config
  rw [hres]
  have hmem : "provider_name" ∉ containerManagerInitParams := by decide
  have hcond : (decide (p ≠ "")) = true := decide_eq_true hp
  constructor
  · refine ⟨"init got an unexpected keyword argument provider_name", ?_⟩
    simp only [hcond, if_true, if_neg hmem]
  · intro sid
    simp only [hcond, if_true, if_neg hmem]
    split
    all_goals split
    all_goals first
      | exact cleanup_session_sessions_shrink st fault _ sid
      | exact fun h => h

/-- C10 witness: the amended claim at a concrete inline-config call. -/
theorem c10_amended_witness :
    ∃ msg, (create_session_from_config emptySM (fun _ => none) sampleAc false "c1" none
        (some cfgSample) (some "docker") "tok").1 = .error (.typeError msg) :=
  (c10_amended emptySM (fun _ => none) sampleAc false "c1" none (some cfgSample)
      "docker" "tok" cfgSample (by rfl) (by decide)).1

/-! ### SessionManager.get_or_create_session (lines 188-232) under
concurrency

The method holds no lock.  Each call runs: a membership check on
`self.sessions` (line 213); if absent, `await create_agent_container`
(line 224) — a suspension point at which other tasks run and where the
backend allocates a fresh container — then the store at line 229.  The
small-step model below gives every call a phase and lets a scheduler
interleave them; `creates` counts `create_agent_container` calls and
doubles as the fresh-container-id source. -/

/-- Phase of one `get_or_create_session` call. -/
inductive GocPhase where
  | start
  | creating
  | done (cid : Nat)
deriving DecidableEq, Repr

/-- Shared state: the `sessions` dict (session id ↦ container id) and the
number of `create_agent_container` calls made so far. -/
structure GocState where
  sessions : List (String × Nat)
  creates : Nat
deriving DecidableEq, Repr

/-- One scheduler step of one call: from `start`, the membership check
either returns the stored container (lines 213-220, no create) or falls
through to the create (line 224) whose `await` suspends; from `creating`,
the create completes — allocating a fresh container and counting one
`createContainer` call — and the store at line 229 runs. -/
def gocStep (sid : String) (st : GocState) (ph : GocPhase) : GocState × GocPhase :=
  match ph with
  | .start =>
    match lookupKey sid st.sessions with
    | some c => (st, .done c)
    | none => (st, .creating)
  | .creating =>
    ({ sessions := insertKey sid st.creates st.sessions, creates := st.creates + 1 },
     .done st.creates)
  | .done c => (st, .done c)

/-- Run a schedule (a list of task indices) over a pool of calls, all
resolving the same session id. -/
def runSched (sid : String) : List Nat → GocState → List GocPhase → GocState × List GocPhase
  | [], st, tasks => (st, tasks)
  | i :: rest, st, tasks =>
    match tasks[i]? with
    | none => runSched sid rest st tasks
    | some ph =>
      let r := gocStep sid st ph
      runSched sid rest r.1 (tasks.set i r.2)

/-- One call run to completion with no interleaving. -/
def runToDone (sid : String) (st : GocState) : GocState × GocPhase :=
  let r1 := gocStep sid st .start
  gocStep sid r1.1 r1.2

/-- `n` calls executed one after another (serialized). -/
def runSeq (sid : String) : Nat → GocState → GocState × List GocPhase
  | 0, st => (st, [])
  | n + 1, st =>
    let r := runToDone sid st
    let rest := runSeq sid n r.1
    (rest.1, r.2 :: rest.2)

/-- C1 counterexample: two concurrent calls on the same unresolved
session id, interleaved so that both membership checks run before either
create completes (schedule 0,1,0,1), make two `createContainer` calls and
return different container ids — there is no session-scoped lock in the
source to prevent this. -/
theorem c1_counterexample :
    (runSched "conv-42" [0, 1, 0, 1] ⟨[], 0⟩ [.start, .start]).1.creates = 2 ∧
    (runSched "conv-42" [0, 1, 0, 1] ⟨[], 0⟩ [.start, .start]).2 =
      [.done 0, .done 1] ∧
    (0 : Nat) ≠ 1 :=
  ⟨by rfl, by rfl, by decide⟩

theorem runSeq_after_hit (sid : String) (c : Nat) (st : GocState)
    (h : lookupKey sid st.sessions = some c) :
    ∀ n, runSeq sid n st = (st, List.replicate n (.done c)) := by
  intro n
  have h1 : runToDone sid st = (st, .done c) := by
    simp [runToDone, gocStep, h]
  induction n with
  | zero => rfl
  | succ n ih => simp [runSeq, h1, ih, List.replicate_succ]

/-- C1 amended: the exactly-one-create guarantee holds only when the
calls are serialized (each completing before the next starts; the source
has no per-session lock that would enforce this under interleaving): then
the first call makes the single `createContainer` call and every later
call returns the same stored container. -/
theorem c1_amended (sid : String) (n : Nat) :
    (runSeq sid (n + 1) ⟨[], 0⟩).1.creates = 1 ∧
    (runSeq sid (n + 1) ⟨[], 0⟩).2 = List.replicate (n + 1) (.done 0) := by
  have h0 : runToDone sid ⟨[], 0⟩ = (⟨[(sid, 0)], 1⟩, .done 0) := by
    simp [runToDone, gocStep, lookupKey, insertKey]
  have hl : lookupKey sid [(sid, 0)] = some 0 := by simp [lookupKey]
  have hrest := runSeq_after_hit sid 0 ⟨[(sid, 0)], 1⟩ hl n
  constructor
  · simp [runSeq, h0, hrest]
  · simp [runSeq, h0, hrest, List.replicate_succ]

/-! ### Credential-override validation (claim C2)

The HTTP layer (api/agents.py line 84) passes `mcp_env=request.mcp_env`
into `SessionManager.create_session_from_config`, and the schema
(models/schemas.py lines 118-121) documents the override shape, but the
`session_manager.py` in src/ has no `mcp_env` parameter and no
`UnauthorizedCredentialKey` check anywhere — the validation these callers
target is code of the repository missing from src/, so it is modelled
from the spec below. -/

/-- Modelled from the spec: the credential-override validation missing
from src/ (the `mcp_env`-accepting `create_session_from_config` body).
Per the spec, runtime credential overrides for auxiliary integrations
must be a strict subset of the names declared in the configuration: every
override must name a server configured in `mcp_servers`, and every env
key it supplies must be declared by that server (a server with no
declared keys accepts no override; a server absent from the configuration
is rejected outright — fail closed). -/
def validate_mcp_env (declared : List (String × List String))
    (override : List (String × List String)) : Bool :=
  override.all (fun p =>
    match lookupKey p.1 declared with
    | none => false
    | some dk => p.2.all (fun k => k ∈ dk))

/-- Modelled from the spec: `create` with runtime credential overrides.
The validation runs before any provisioning, rejecting with
`UnauthorizedCredentialKey` and leaving the state untouched (no container
is created); only a valid override proceeds to store the new session. -/
def launch_with_overrides (st : SMState) (cfg : AgentConfigM)
    (override : List (String × List String)) (newAc : AgentContainerM)
    (session_id : String) : Except PyErr (String × AgentContainerM) × SMState :=
  if validate_mcp_env cfg.mcp_servers override then
    (.ok (session_id, newAc),
      { st with sessions := insertKey session_id newAc st.sessions })
  else
    (.error .unauthorizedCredentialKey, st)

/-- C2: supplying an override key not declared for its server in the
configuration (or targeting a server the configuration does not declare)
makes `create` fail with `UnauthorizedCredentialKey` and leaves the state
exactly as it was — no container is provisioned. -/
theorem c2_undeclared_key_rejected (st : SMState) (cfg : AgentConfigM)
    (override : List (String × List String)) (newAc : AgentContainerM)
    (session_id srv k : String) (keys : List String)
    (hmem : (srv, keys) ∈ override) (hk : k ∈ keys)
    (hundecl : ∀ dk, lookupKey srv cfg.mcp_servers = some dk → k ∉ dk) :
    launch_with_overrides st cfg override newAc session_id =
      (.error .unauthorizedCredentialKey, st) := by
  have hv : validate_mcp_env cfg.mcp_servers override = false := by
    cases hv : validate_mcp_env cfg.mcp_servers override with
    | false => rfl
    | true =>
      exfalso
      have hp := List.all_eq_true.mp hv (srv, keys) hmem
      cases hkd : lookupKey srv cfg.mcp_servers with
      | none =>
        rw [hkd] at hp
        exact Bool.false_ne_true hp
      | some dk =>
        rw [hkd] at hp
        have hkin := List.all_eq_true.mp hp k hk
        exact hundecl dk hkd (by simpa using hkin)
  simp [launch_with_overrides, hv]

/-- C2 witness: a configuration declaring only `GITHUB_TOKEN` for the
`github` integration rejects an override smuggling `EVIL_VAR`. -/
theorem c2_undeclared_key_rejected_witness :
    launch_with_overrides emptySM cfgSample [("github", ["EVIL_VAR"])] sampleAc
        "conv-w" = (.error .unauthorizedCredentialKey, emptySM) :=
  c2_undeclared_key_rejected emptySM cfgSample [("github", ["EVIL_VAR"])] sampleAc
    "conv-w" "github" "EVIL_VAR" ["EVIL_VAR"]
    (by simp) (by simp)
    (by
      intro dk hdk
      rw [show lookupKey "github" cfgSample.mcp_servers = some ["GITHUB_TOKEN"] from rfl]
        at hdk
      cases hdk
      decide)

end AgCluster
